import Mathlib

/-!
Shallow Lean embedding of the Cinematch dashboard (`src/app.py`), covering the
data model and the operations referenced by the specification: the history
store adapter (`get_users`, `get_watched_history`, `get_hidden_ids`,
`log_media`, `hide_media_db`), the catalog client wrapper
(`get_recommendations`), the stats dashboard computation, the genre-cleaning
logic, and the session-state recommendation pipeline (filter reset, initial
page merge, "Load More" merge, display filtering and sorting).

External effects are made explicit: the spreadsheet store's response is a
parameter (`List (List String)` of rows), the catalog's HTTP response is a
`CatalogResponse` sum (HTTP failure / JSON decode failure / JSON without the
`results` key / JSON with results), store appends that can fail carry a
Boolean failure flag, and Python exceptions are `Except`.
-/

namespace Cinematch

/-- A title item as returned by the TMDB discover/search endpoints.
Only the fields the embedded operations consult are modelled: `id` (the
numeric catalog id), the optional `media_type` tag, and the fields read by
the grid's sort step (`vote_average` via `.get('vote_average', 0)`,
`release_date` via `.get('release_date', '0000')`). -/
structure Title where
  id : Nat
  media_type : Option String := none
  vote_average : Option ℚ := none
  release_date : Option String := none
deriving DecidableEq, Repr

/-- `str(m['id'])` — the app keys its session sets by the stringified id. -/
def idStr (t : Title) : String := toString t.id

/-- The filter tuple `curr_filters = (media_type, tuple(sel_ids), sort_by,
tuple(prov_ids) if prov_ids else None)` built in the recommendations view. -/
structure Filters where
  media_type : String
  sel_ids : List Nat
  sort_by : String
  prov_ids : Option (List Nat)
deriving DecidableEq, Repr

/-- The slice of `st.session_state` the recommendation flow reads and writes:
`hidden_movies`, `loaded_recs`, `existing_ids`, `rec_page`, `last_filters`. -/
structure Session where
  hidden_movies : Finset String
  loaded_recs : List Title
  existing_ids : Finset String
  rec_page : Nat
  last_filters : Option Filters
deriving DecidableEq

/-- The merge loop shared by the initial page load (app.py lines 559-563) and
the "Load More" handler (lines 623-628):

    for m in new_data:
        if str(m['id']) not in st.session_state.existing_ids:
            st.session_state.loaded_recs.append(m)
            st.session_state.existing_ids.add(str(m['id']))

(`m['provider_logos'] = get_watch_providers(...)` only decorates the item and
is dropped here.) -/
def mergeLoop (loaded : List Title) (ids : Finset String) :
    List Title → List Title × Finset String
  | [] => (loaded, ids)
  | m :: rest =>
    if idStr m ∈ ids then mergeLoop loaded ids rest
    else mergeLoop (loaded ++ [m]) (insert (idStr m) ids) rest

/-- The spec's `paginateAndDeduplicate(existingIds, newPage)` operation:
run the merge loop starting from an empty appended list, returning
`(toAppend, updatedIds)`. -/
def paginateAndDeduplicate (existingIds : Finset String) (newPage : List Title) :
    List Title × Finset String :=
  mergeLoop [] existingIds newPage

/-- Possible outcomes of `requests.get(base_url).json()` in
`get_recommendations` (app.py lines 281-292).  `httpFailure` models an
exception raised by `requests.get`, `decodeFailure` an exception raised by
`.json()`, `jsonNoResults` a decoded body without a `results` key, and
`jsonResults` a decoded body carrying a `results` list. -/
inductive CatalogResponse where
  | httpFailure
  | decodeFailure
  | jsonNoResults
  | jsonResults (results : List Title)
deriving DecidableEq, Repr

/-- `get_recommendations(watched_ids, media_type, selected_genre_ids,
provider_ids, page)` (app.py lines 281-292).  The body builds a discover URL
and runs `requests.get(base_url).json().get('results', [])` with NO
try/except, so an HTTP or JSON-decoding failure propagates as an exception
(`Except.error`); a decoded body without `results` yields `[]`.
Note: the `watched_ids` parameter is received but never used anywhere in the
source body — the returned page is the catalog page verbatim. -/
def get_recommendations (resp : CatalogResponse) (watched_ids : List String)
    (media_type : String) (selected_genre_ids : Option (List Nat))
    (provider_ids : Option (List Nat)) (page : Nat) :
    Except String (List Title) :=
  match resp with
  | .httpFailure => .error "requests.exceptions.RequestException"
  | .decodeFailure => .error "json.JSONDecodeError"
  | .jsonNoResults => .ok []
  | .jsonResults results => .ok results

/-- The filter-reset step (app.py lines 549-555):

    if st.session_state.last_filters != curr_filters:
        st.session_state.loaded_recs = []
        st.session_state.existing_ids = set()
        st.session_state.rec_page = 1
        st.session_state.last_filters = curr_filters
-/
def applyFilterCheck (s : Session) (curr : Filters) : Session :=
  if s.last_filters ≠ some curr then
    { hidden_movies := s.hidden_movies, loaded_recs := [], existing_ids := ∅,
      rec_page := 1, last_filters := some curr }
  else s

/-- The display filter (app.py line 565):
`[m for m in st.session_state.loaded_recs if str(m['id']) not in
st.session_state.hidden_movies]`. -/
def display_list (loaded_recs : List Title) (hidden_movies : Finset String) :
    List Title :=
  loaded_recs.filter (fun m => idStr m ∉ hidden_movies)

/-- The optional in-grid sort (app.py lines 567-568): a stable descending
sort by `x.get('vote_average', 0)` when sorting by "Rating", by
`x.get('release_date', '0000')` when sorting by "Newest", else unchanged. -/
def sortDisplay (sort_by : String) (l : List Title) : List Title :=
  if sort_by = "Rating" then
    l.mergeSort (fun a b =>
      decide ((b.vote_average.getD 0) ≤ (a.vote_average.getD 0)))
  else if sort_by = "Newest" then
    l.mergeSort (fun a b =>
      decide ((b.release_date.getD "0000") ≤ (a.release_date.getD "0000")))
  else l

/-- The initial page load (app.py lines 557-563): when `loaded_recs` is
empty, fetch page 1 and run the merge loop over it. -/
def initialLoad (resp : CatalogResponse) (watched_ids : List String)
    (curr : Filters) (s : Session) : Except String Session :=
  if s.loaded_recs = [] then
    match get_recommendations resp watched_ids curr.media_type
        (some curr.sel_ids) curr.prov_ids 1 with
    | .error e => .error e
    | .ok new_data =>
      let merged := mergeLoop s.loaded_recs s.existing_ids new_data
      .ok { s with loaded_recs := merged.1, existing_ids := merged.2 }
  else .ok s

/-- One render of the recommendations view (app.py lines 546-568): apply the
filter-reset check, run the initial page load if needed, then produce the
displayed list (hidden filter followed by the optional sort). -/
def renderRecommendations (resp : CatalogResponse)
    (history_movie_ids : List String) (curr : Filters) (s : Session) :
    Except String (List Title × Session) :=
  let s1 := applyFilterCheck s curr
  match initialLoad resp history_movie_ids curr s1 with
  | .error e => .error e
  | .ok s2 =>
    .ok (sortDisplay curr.sort_by (display_list s2.loaded_recs s2.hidden_movies), s2)

/-- The "Load More..." click handler (app.py lines 617-630): bump
`rec_page`, fetch that page, merge it through the shared loop, and count the
newly appended items (`count == 0` triggers the "No more movies found!"
toast). -/
def loadMoreClick (resp : CatalogResponse) (watched_ids : List String)
    (curr : Filters) (s : Session) : Except String (Session × Nat) :=
  let s1 := { s with rec_page := s.rec_page + 1 }
  match get_recommendations resp watched_ids curr.media_type
      (some curr.sel_ids) curr.prov_ids s1.rec_page with
  | .error e => .error e
  | .ok new_data =>
    let merged := mergeLoop s1.loaded_recs s1.existing_ids new_data
    .ok ({ s1 with loaded_recs := merged.1, existing_ids := merged.2 },
      merged.1.length - s1.loaded_recs.length)

/-- `get_hidden_ids(user)` (app.py lines 224-227): read the `Hidden!A:B`
rows and collect `row[1]` for every row with `len(row) > 1 and
row[0] == user` — note the row carries no media kind. -/
def get_hidden_ids (rows : List (List String)) (user : String) :
    Finset String :=
  (rows.filterMap (fun row =>
    if 1 < row.length ∧ row.get? 0 = some user then row.get? 1
    else none)).toFinset

/-- The session-side effect of the "Hide" button and of a successful log
(app.py lines 486 and 611): `st.session_state.hidden_movies.add(str(id))` —
again no media kind is recorded. -/
def hideInSession (hidden_movies : Finset String) (id : Nat) : Finset String :=
  insert (toString id) hidden_movies

/-! History store reads (app.py lines 172-175 and 229-232). -/

/-- `get_users()` (app.py lines 172-175): read `Users!A:B`; if the rows are
empty or fewer than 2, return `[]`; otherwise return `row[1]` of every row
after the header (`row[1]` raises an `IndexError` on a short row, modelled
as `Except.error`). -/
def get_users (rows : List (List String)) : Except String (List String) :=
  if rows = [] ∨ rows.length < 2 then .ok []
  else
    (rows.drop 1).mapM (fun row =>
      match row.get? 1 with
      | some v => Except.ok v
      | none => Except.error "IndexError")

/-- `get_watched_history()` (app.py lines 229-232): read `Activity_Log!A:H`;
fewer than 2 rows yields an empty DataFrame, otherwise a DataFrame over the
rows after the header (the frame is modelled as its list of rows). -/
def get_watched_history (rows : List (List String)) : List (List String) :=
  if rows.length < 2 then [] else rows.drop 1

/-! Stats dashboard (app.py lines 396-428). -/

/-- One row of the active user's slice of the activity log, with the columns
`["Date", "Title", "Movie_ID", "Genres", "User", "Rating", "Type",
"Poster"]`. -/
structure ActivityRow where
  date : String
  title : String
  movie_id : String
  genres : String
  user : String
  rating : String
  type_ : String
  poster : String
deriving DecidableEq, Repr

/-- Decimal value of a digit-character list. -/
def digitsToNat (l : List Char) : Nat :=
  l.foldl (fun n c => 10 * n + (c.toNat - 48)) 0

/-- Parse an optionally-signed decimal integer from a character list;
`none` on anything else. -/
def parseIntChars : List Char → Option Int
  | [] => none
  | '-' :: rest =>
    if rest ≠ [] ∧ rest.all Char.isDigit then some (-(digitsToNat rest : Int))
    else none
  | l => if l.all Char.isDigit then some (digitsToNat l : Int) else none

/-- `pd.to_numeric(..., errors='coerce')` on one cell of this app's data:
the app only ever writes integer ratings (`str(rating)` from a 1-100
slider), so integer parsing models `to_numeric` here; an unparseable value
becomes `none` (pandas NaN). -/
def pyToNumeric (s : String) : Option Int := parseIntChars s.data

/-- `pd.to_numeric(df_scores['Rating'], errors='coerce').fillna(0)` applied
to one cell: an unparseable rating (coerced to NaN) is replaced by 0. -/
def to_numeric_fillna0 (s : String) : Int := (pyToNumeric s).getD 0

/-- A history row paired with its coerced numeric rating, i.e. one row of
`df_scores` after the `Rating` column has been overwritten. -/
structure ScoredRow where
  row : ActivityRow
  score : Int
deriving DecidableEq, Repr

/-- `df_scores`: the user history with the `Rating` column coerced. -/
def df_scores (rows : List ActivityRow) : List ScoredRow :=
  rows.map (fun r => ⟨r, to_numeric_fillna0 r.rating⟩)

/-- `total = len(user_history)` (app.py line 396): the count shown on the
"Movies Rated" card — the raw row count, malformed ratings included. -/
def statsTotal (rows : List ActivityRow) : Nat := rows.length

/-- `df_scores['Rating'].mean()` (app.py line 418): the arithmetic mean of
the coerced ratings (`none` on an empty frame, where pandas yields NaN; the
stats block only runs on a non-empty history). -/
def avgRating (rows : List ActivityRow) : Option ℚ :=
  match rows with
  | [] => none
  | _ => some (((df_scores rows).map (fun r => (r.score : ℚ))).sum / rows.length)

/-- `df_scores.loc[df_scores['Rating'].idxmax()]` (app.py line 420):
the first row achieving the maximum coerced rating. -/
def bestRow (rows : List ActivityRow) : Option ScoredRow :=
  match df_scores rows with
  | [] => none
  | r :: rs => some (rs.foldl (fun b x => if b.score < x.score then x else b) r)

/-- `df_scores.loc[df_scores['Rating'].idxmin()]` (app.py line 424):
the first row achieving the minimum coerced rating. -/
def worstRow (rows : List ActivityRow) : Option ScoredRow :=
  match df_scores rows with
  | [] => none
  | r :: rs => some (rs.foldl (fun b x => if x.score < b.score then x else b) r)

/-! Genre cleaning (app.py lines 398-412).  Python's single-character
`str.replace`, `str.split`, `str.strip` and `str.lower` are re-stated as
structural recursions over the character list so the kernel can evaluate
them; they agree with the library string functions on these inputs. -/

/-- An apostrophe character, as stripped by `.replace("'", "")`. -/
def squoteChar : Char := Char.ofNat 39

/-- `g_str.lower()`: Python's case fold on this data is per-character. -/
def pyLower (s : String) : String := String.mk (s.data.map Char.toLower)

/-- `str(g_str).replace('[', '').replace(']', '').replace("'", "")`
(app.py line 404): each replacement deletes every occurrence of a
single character, i.e. filters that character out. -/
def clean_genre_str (g_str : String) : String :=
  String.mk (g_str.data.filter
    (fun c => ¬(c = '[' ∨ c = ']' ∨ c = squoteChar)))

/-- Comma split on a character list, Python `"a,b".split(',') = ["a","b"]`
semantics (the empty string yields one empty field). -/
def splitCommaChars : List Char → List (List Char)
  | [] => [[]]
  | c :: rest =>
    match splitCommaChars rest with
    | [] => [[]]
    | g :: gs => if c = ',' then [] :: g :: gs else (c :: g) :: gs

/-- `clean_str.split(',')` (app.py line 405). -/
def pySplitComma (s : String) : List String :=
  (splitCommaChars s.data).map String.mk

/-- `x.strip()` (app.py line 405): drop leading and trailing whitespace. -/
def pyStrip (s : String) : String :=
  String.mk
    (((s.data.dropWhile Char.isWhitespace).reverse.dropWhile
      Char.isWhitespace).reverse)

/-- `genre_map_rev.get(part, part)` (app.py line 408): map a genre id token
through the reversed taxonomy (`{str(id): name}`), keeping the token itself
when it is not a key. -/
def normalize_token (genre_map_rev : List (String × String)) (part : String) :
    String :=
  (List.lookup part genre_map_rev).getD part

/-- The per-record contribution to `all_genres_names` (app.py lines
402-408): skip the record when its `Genres` cell is falsy or reads
"unknown"/"error" case-insensitively; otherwise clean the braces, split on
commas, strip each part, and map each part through the reversed taxonomy. -/
def genre_names_of (genre_map_rev : List (String × String)) (g_str : String) :
    List String :=
  if g_str ≠ "" ∧ pyLower g_str ≠ "unknown" ∧ pyLower g_str ≠ "error" then
    ((pySplitComma (clean_genre_str g_str)).map pyStrip).map
      (normalize_token genre_map_rev)
  else []

/-- `all_genres_names` accumulated over the user's history rows
(app.py lines 400-408). -/
def all_genres_names (genre_map_rev : List (String × String))
    (rows : List ActivityRow) : List String :=
  rows.flatMap (fun r => genre_names_of genre_map_rev r.genres)

/-! History store writes (app.py lines 187-222) and the detail-view "Log to
Database" handler (app.py lines 483-490). -/

/-- A user-visible notice emitted by a handler: `st.toast`, `st.error`,
`st.success`, or the framework's uncaught-exception screen. -/
inductive UINotice where
  | toast (msg : String)
  | errorNotice (msg : String)
  | successNotice (msg : String)
deriving DecidableEq, Repr

/-- The `genres` argument of `log_media` as passed by the app: a list of
TMDB genre dicts, a list of integer genre ids (`m.get('genre_ids', [])`), a
non-list value (whose `str()` is carried), or a pathological value whose
processing raises. -/
inductive GenresArg where
  | dicts (names : List (Option String))
  | ints (l : List Int)
  | nonList (reprStr : String)
  | raising
deriving DecidableEq, Repr

/-- Python's `str` on a list of ints, e.g. `str([28, 12]) = "[28, 12]"`. -/
def pyStrIntList (l : List Int) : String :=
  "[" ++ String.intercalate ", " (l.map toString) ++ "]"

/-- The "Genre Fix" block of `log_media` (app.py lines 192-201): start from
"Unknown"; a non-empty list of dicts joins the `name` values
(`g.get('name', '')`), a non-empty list of ints keeps `str(genres)`, any
other value keeps `str(genres)`; an exception during this yields "Error". -/
def genre_fix : GenresArg → String
  | .dicts names =>
    if names = [] then "[]"
    else String.intercalate ", " (names.map (fun n => n.getD ""))
  | .ints l => if l = [] then "[]" else pyStrIntList l
  | .nonList reprStr => reprStr
  | .raising => "Error"

/-- The effect of one spreadsheet-append-based write: the rows appended to
the sheet and the notices shown. -/
structure WriteEffect where
  appended : List (List String)
  notices : List UINotice
deriving DecidableEq, Repr

/-- `log_media(title, movie_id, genres, users_ratings, media_type,
poster_path)` (app.py lines 187-211): build one `Activity_Log` row per
(user, rating) pair and append them, then `st.toast`.  The append call is
NOT wrapped in try/except, so a failed append (modelled by `appendFails`)
propagates as an exception and no toast is shown. -/
def log_media (appendFails : Bool) (timestamp title : String) (movie_id : Nat)
    (genres : GenresArg) (users_ratings : List (String × Nat))
    (media_type poster_path : String) : Except String WriteEffect :=
  let genre_str := genre_fix genres
  let new_rows := users_ratings.map (fun ur =>
    [timestamp, title, toString movie_id, genre_str, ur.1, toString ur.2,
      media_type, poster_path])
  if appendFails then Except.error "googleapiclient.errors.HttpError"
  else Except.ok { appended := new_rows,
                   notices := [UINotice.toast ("Logged " ++ title ++ "!")] }

/-- `hide_media_db(user, movie_id)` (app.py lines 213-222): append one
`Hidden!A:C` row `[user, str(movie_id), timestamp]`; the append IS wrapped
in try/except, and a failure shows `st.error(f"Could not save hide: ...")`
instead of appending. -/
def hide_media_db (appendFails : Bool) (user movie_id timestamp : String) :
    WriteEffect :=
  if appendFails then
    { appended := [], notices := [UINotice.errorNotice "Could not save hide"] }
  else { appended := [[user, movie_id, timestamp]], notices := [] }

/-- The outcome of the detail-view "Log to Database" click (app.py lines
483-490): the rows appended to each sheet, the notices shown in order, the
updated session hidden set, and whether the run aborted with the framework's
uncaught-exception screen. -/
structure LogHandlerResult where
  activityAppended : List (List String)
  hiddenAppended : List (List String)
  notices : List UINotice
  hidden_movies : Finset String
  raised : Bool
deriving DecidableEq

/-- The "Log to Database" click handler (app.py lines 483-490):

    log_media(m['title'], m['id'], m.get('genre_ids', []),
              {active_user: user_rating}, m['media_type'], m['poster_path'])
    st.success("Logged!")
    st.session_state.hidden_movies.add(str(m['id']))
    hide_media_db(active_user, str(m['id']))

If `log_media` raises, the later lines never run and the exception surfaces
as the framework's error screen. -/
def logButtonHandler (logAppendFails hideAppendFails : Bool)
    (timestamp active_user : String) (m_id : Nat) (m_title : String)
    (genre_ids : List Int) (media_type poster : String) (user_rating : Nat)
    (hidden_movies : Finset String) : LogHandlerResult :=
  match log_media logAppendFails timestamp m_title m_id (.ints genre_ids)
      [(active_user, user_rating)] media_type poster with
  | .error _ =>
    { activityAppended := [], hiddenAppended := [], notices := [],
      hidden_movies := hidden_movies, raised := true }
  | .ok logEff =>
    let hidden2 := hideInSession hidden_movies m_id
    let hideEff := hide_media_db hideAppendFails active_user (toString m_id)
      timestamp
    { activityAppended := logEff.appended, hiddenAppended := hideEff.appended,
      notices := logEff.notices ++ [UINotice.successNotice "Logged!"] ++
        hideEff.notices,
      hidden_movies := hidden2, raised := false }

/-- The stats test fixture from the spec's §8 item 4: four history rows for
one user whose `Rating` cells are `"90"`, `"70"`, `"bad"`, `"50"`. -/
def c2_rows : List ActivityRow :=
  [⟨"2024-01-01", "A", "1", "Action", "Me", "90", "movie", "p1"⟩,
   ⟨"2024-01-02", "B", "2", "Action", "Me", "70", "movie", "p2"⟩,
   ⟨"2024-01-03", "C", "3", "Action", "Me", "bad", "movie", "p3"⟩,
   ⟨"2024-01-04", "D", "4", "Action", "Me", "50", "movie", "p4"⟩]

theorem mergeLoop_append (P : List Title) :
    ∀ (loaded : List Title) (ids : Finset String),
      mergeLoop loaded ids P =
        (loaded ++ (mergeLoop [] ids P).1, (mergeLoop [] ids P).2) := by
  induction P with
  | nil => intro loaded ids; simp [mergeLoop]
  | cons m rest ih =>
    intro loaded ids
    by_cases h : idStr m ∈ ids
    · rw [mergeLoop, if_pos h, mergeLoop, if_pos h, ih loaded]
    · rw [mergeLoop, if_neg h, mergeLoop, if_neg h]
      rw [ih (loaded ++ [m]), ih ([] ++ [m])]
      simp

theorem mergeLoop_fresh (P : List Title) :
    ∀ (ids : Finset String) (t : Title),
      t ∈ (mergeLoop [] ids P).1 → idStr t ∉ ids := by
  induction P with
  | nil => intro ids t ht; simp [mergeLoop] at ht
  | cons m rest ih =>
    intro ids t ht
    by_cases h : idStr m ∈ ids
    · rw [mergeLoop, if_pos h] at ht
      exact ih ids t ht
    · rw [mergeLoop, if_neg h, mergeLoop_append] at ht
      rcases List.mem_append.mp ht with ht | ht
      · rcases List.mem_singleton.mp (by simpa using ht) with rfl
        exact h
      · intro hmem
        exact ih _ t ht (Finset.mem_insert_of_mem hmem)

theorem mergeLoop_ids (P : List Title) :
    ∀ (ids : Finset String) (x : String),
      x ∈ (mergeLoop [] ids P).2 ↔
        x ∈ ids ∨ x ∈ (mergeLoop [] ids P).1.map idStr := by
  induction P with
  | nil => intro ids x; simp [mergeLoop]
  | cons m rest ih =>
    intro ids x
    by_cases h : idStr m ∈ ids
    · rw [mergeLoop, if_pos h]
      constructor
      · intro hx
        rcases (ih ids x).mp hx with hx | hx
        · exact Or.inl hx
        · exact Or.inr hx
      · intro hx
        exact (ih ids x).mpr hx
    · rw [mergeLoop, if_neg h, mergeLoop_append]
      simp only [List.nil_append, List.map_append, List.mem_append,
        List.map_cons, List.map_nil, List.mem_singleton]
      constructor
      · intro hx
        rcases (ih _ x).mp hx with hx | hx
        · rcases Finset.mem_insert.mp hx with rfl | hx
          · exact Or.inr (Or.inl rfl)
          · exact Or.inl hx
        · exact Or.inr (Or.inr hx)
      · intro hx
        rcases hx with hx | hx | hx
        · exact (ih _ x).mpr (Or.inl (Finset.mem_insert_of_mem hx))
        · subst hx
          exact (ih _ _).mpr (Or.inl (Finset.mem_insert_self _ _))
        · exact (ih _ x).mpr (Or.inr hx)

theorem mergeLoop_covers (P : List Title) :
    ∀ (ids : Finset String) (m : Title),
      m ∈ P → idStr m ∈ (mergeLoop [] ids P).2 := by
  induction P with
  | nil => intro ids m hm; simp at hm
  | cons p rest ih =>
    intro ids m hm
    by_cases h : idStr p ∈ ids
    · rw [mergeLoop, if_pos h]
      rcases List.mem_cons.mp hm with rfl | hm
      · exact (mergeLoop_ids rest ids (idStr m)).mpr (Or.inl h)
      · exact ih ids m hm
    · rw [mergeLoop, if_neg h, mergeLoop_append]
      rcases List.mem_cons.mp hm with rfl | hm
      · exact (mergeLoop_ids rest _ (idStr m)).mpr
          (Or.inl (Finset.mem_insert_self _ _))
      · have := ih (insert (idStr p) ids) m hm
        rw [mergeLoop_ids] at this ⊢
        exact this

theorem mergeLoop_nodup (P : List Title) :
    ∀ (ids : Finset String), ((mergeLoop [] ids P).1.map idStr).Nodup := by
  induction P with
  | nil => intro ids; simp [mergeLoop]
  | cons m rest ih =>
    intro ids
    by_cases h : idStr m ∈ ids
    · rw [mergeLoop, if_pos h]; exact ih ids
    · rw [mergeLoop, if_neg h, mergeLoop_append]
      simp only [List.map_append, List.map_cons, List.map_nil]
      rw [List.nodup_append]
      refine ⟨List.nodup_singleton _, ih _, ?_⟩
      intro x hx hy
      have hx' : x = idStr m := List.mem_singleton.mp hx
      subst hx'
      simp only [List.mem_map] at hy
      obtain ⟨t, ht, hid⟩ := hy
      exact mergeLoop_fresh rest _ t ht (hid ▸ Finset.mem_insert_self _ _)

theorem mergeLoop_stalls (P : List Title) :
    ∀ (ids : Finset String), (∀ m ∈ P, idStr m ∈ ids) →
      mergeLoop [] ids P = ([], ids) := by
  induction P with
  | nil => intro ids _; simp [mergeLoop]
  | cons m rest ih =>
    intro ids hall
    rw [mergeLoop, if_pos (hall m (List.mem_cons_self m rest))]
    exact ih ids fun p hp => hall p (List.mem_cons_of_mem m hp)

theorem lookup_eq_none_of_no_digit (part : String)
    (hpart : part.data.all Char.isDigit = false) :
    ∀ (gmap : List (String × String)),
      (∀ q ∈ gmap, q.1.data.all Char.isDigit = true) →
      List.lookup part gmap = none := by
  intro gmap
  induction gmap with
  | nil => intro _; rfl
  | cons q rest ih =>
    intro hkeys
    rw [List.lookup]
    have hne : (part == q.1) = false := by
      by_contra hcon
      have heq : part = q.1 := eq_of_beq (Bool.of_not_eq_false hcon)
      rw [heq, hkeys q (List.mem_cons_self q rest)] at hpart
      simp at hpart
    rw [hne]
    exact ih fun q hq => hkeys q (List.mem_cons_of_mem _ hq)

/-- C4: for every accumulated id set `S` and freshly fetched page `P`, the
merge (i) appends only titles whose stringified ids are not in `S`, (ii)
updates the id set to exactly `S` united with the ids of the appended
titles, (iii) is idempotent — merging the same page `P` against the updated
set appends nothing — and (iv) keeps the accumulated `loaded_recs` list free
of duplicate ids whenever its ids were duplicate-free and covered by `S`
coming in (the code's invariant between renders). -/
theorem c4_paginate_dedup (S : Finset String) (P : List Title) :
    (∀ t ∈ (paginateAndDeduplicate S P).1, idStr t ∉ S) ∧
    (paginateAndDeduplicate S P).2 =
      S ∪ ((paginateAndDeduplicate S P).1.map idStr).toFinset ∧
    paginateAndDeduplicate (paginateAndDeduplicate S P).2 P =
      ([], (paginateAndDeduplicate S P).2) ∧
    (∀ (loaded : List Title), (loaded.map idStr).Nodup →
      (∀ t ∈ loaded, idStr t ∈ S) →
      ((mergeLoop loaded S P).1.map idStr).Nodup) := by
  refine ⟨mergeLoop_fresh P S, ?_, ?_, ?_⟩
  · ext x
    simp only [Finset.mem_union, List.mem_toFinset]
    exact mergeLoop_ids P S x
  · exact mergeLoop_stalls P _ (fun m hm => mergeLoop_covers P S m hm)
  · intro loaded hnd hsub
    rw [mergeLoop_append]
    simp only [List.map_append]
    rw [List.nodup_append]
    refine ⟨hnd, mergeLoop_nodup P S, ?_⟩
    intro x hx hy
    simp only [List.mem_map] at hx hy
    obtain ⟨t, ht, rfl⟩ := hx
    obtain ⟨t2, ht2, hid⟩ := hy
    exact mergeLoop_fresh P S t2 ht2 (hid ▸ hsub t ht)

/-- C4 witness: the dedup merge theorem instantiated at the concrete set
`{"1"}` and the page `[id 2, id 1, id 2]`, whose upstream duplicate and
already-present id both exercise the skip branch. -/
theorem c4_witness :
    (∀ t ∈ (paginateAndDeduplicate {"1"}
        [⟨2, none, none, none⟩, ⟨1, none, none, none⟩, ⟨2, none, none, none⟩]).1,
      idStr t ∉ ({"1"} : Finset String)) ∧
    (paginateAndDeduplicate {"1"}
        [⟨2, none, none, none⟩, ⟨1, none, none, none⟩, ⟨2, none, none, none⟩]).2 =
      {"1"} ∪ ((paginateAndDeduplicate {"1"}
        [⟨2, none, none, none⟩, ⟨1, none, none, none⟩,
          ⟨2, none, none, none⟩]).1.map idStr).toFinset ∧
    paginateAndDeduplicate (paginateAndDeduplicate {"1"}
        [⟨2, none, none, none⟩, ⟨1, none, none, none⟩, ⟨2, none, none, none⟩]).2
        [⟨2, none, none, none⟩, ⟨1, none, none, none⟩, ⟨2, none, none, none⟩] =
      ([], (paginateAndDeduplicate {"1"}
        [⟨2, none, none, none⟩, ⟨1, none, none, none⟩, ⟨2, none, none, none⟩]).2) ∧
    (∀ (loaded : List Title), (loaded.map idStr).Nodup →
      (∀ t ∈ loaded, idStr t ∈ ({"1"} : Finset String)) →
      ((mergeLoop loaded {"1"}
        [⟨2, none, none, none⟩, ⟨1, none, none, none⟩,
          ⟨2, none, none, none⟩]).1.map idStr).Nodup) :=
  c4_paginate_dedup {"1"}
    [⟨2, none, none, none⟩, ⟨1, none, none, none⟩, ⟨2, none, none, none⟩]

/-- C3 counterexample: an HTTP failure of the catalog call does NOT yield an
empty list — `get_recommendations` has no try/except, so the exception
propagates (`isOk = false`), refuting "returns an empty list for that page
and never raises" at this concrete input. -/
theorem c3_counterexample :
    (get_recommendations CatalogResponse.httpFailure ["550"] "Movies"
      (some []) none 1).isOk = false := by rfl

/-- C3 (amended): a decoded catalog response that lacks the `results` key
yields an empty list via `.get('results', [])`, but a failed HTTP call or a
JSON-decoding failure propagates as an exception to the caller — the
function never converts those into an empty page. -/
theorem c3_fetch_failure_behavior (watched : List String) (mt : String)
    (g p : Option (List Nat)) (page : Nat) :
    get_recommendations CatalogResponse.jsonNoResults watched mt g p page =
      Except.ok [] ∧
    (get_recommendations CatalogResponse.httpFailure watched mt g p page).isOk =
      false ∧
    (get_recommendations CatalogResponse.decodeFailure watched mt g p page).isOk =
      false :=
  ⟨rfl, rfl, rfl⟩

/-- C1: evaluation of the recommendation view at a failing input.  The
watched-history id list is `["550"]` and the user has hidden nothing, yet
when the catalog page contains title 550 the rendered display list is
exactly `["550"]` — the watched title IS shown, because
`get_recommendations` ignores its `watched_ids` argument and the display
filter consults only `hidden_movies`.  This refutes the exclusion
invariant for ids coming from ActivityRecords. -/
theorem c1_watched_id_displayed :
    (renderRecommendations (CatalogResponse.jsonResults [⟨550, none, none, none⟩])
        ["550"] ⟨"Movies", [], "Popularity", none⟩
        ⟨∅, [], ∅, 1, none⟩).map (fun r => r.1.map idStr) =
      Except.ok ["550"] := by rfl

/-- C5: if the session's `last_filters` records a filter tuple `f` and the
current tuple `curr` differs from it in any element (media type, genre
selection, provider selection, or sort), the reset step empties
`loaded_recs`, empties `existing_ids`, sets `rec_page` to 1, and records
`curr` — so no id accumulated under the previous filter combination carries
over. -/
theorem c5_filter_change_resets (s : Session) (f curr : Filters)
    (hlast : s.last_filters = some f)
    (hdiff : f.media_type ≠ curr.media_type ∨ f.sel_ids ≠ curr.sel_ids ∨
      f.prov_ids ≠ curr.prov_ids ∨ f.sort_by ≠ curr.sort_by) :
    (applyFilterCheck s curr).loaded_recs = [] ∧
    (applyFilterCheck s curr).existing_ids = ∅ ∧
    (applyFilterCheck s curr).rec_page = 1 ∧
    (applyFilterCheck s curr).last_filters = some curr ∧
    (applyFilterCheck s curr).hidden_movies = s.hidden_movies := by
  have hne : s.last_filters ≠ some curr := by
    rw [hlast]
    intro h
    injection h with h
    rcases hdiff with hd | hd | hd | hd <;> exact hd (by rw [h])
  rw [applyFilterCheck, if_pos hne]
  exact ⟨rfl, rfl, rfl, rfl, rfl⟩

/-- C5 witness: a session that accumulated title 7 on page 3 under sort
"Popularity" is fully reset when the sort changes to "Rating". -/
theorem c5_witness :
    (applyFilterCheck
      ⟨∅, [⟨7, none, none, none⟩], {"7"}, 3, some ⟨"Movies", [], "Popularity", none⟩⟩
      ⟨"Movies", [], "Rating", none⟩).loaded_recs = [] ∧
    (applyFilterCheck
      ⟨∅, [⟨7, none, none, none⟩], {"7"}, 3, some ⟨"Movies", [], "Popularity", none⟩⟩
      ⟨"Movies", [], "Rating", none⟩).existing_ids = ∅ ∧
    (applyFilterCheck
      ⟨∅, [⟨7, none, none, none⟩], {"7"}, 3, some ⟨"Movies", [], "Popularity", none⟩⟩
      ⟨"Movies", [], "Rating", none⟩).rec_page = 1 ∧
    (applyFilterCheck
      ⟨∅, [⟨7, none, none, none⟩], {"7"}, 3, some ⟨"Movies", [], "Popularity", none⟩⟩
      ⟨"Movies", [], "Rating", none⟩).last_filters =
        some ⟨"Movies", [], "Rating", none⟩ ∧
    (applyFilterCheck
      ⟨∅, [⟨7, none, none, none⟩], {"7"}, 3, some ⟨"Movies", [], "Popularity", none⟩⟩
      ⟨"Movies", [], "Rating", none⟩).hidden_movies = ∅ :=
  c5_filter_change_resets _ ⟨"Movies", [], "Popularity", none⟩ _ rfl
    (Or.inr (Or.inr (Or.inr (by decide))))

/-- C6 counterexample: user "U" hid title 123 while browsing TV shows (the
session stores the bare string "123"; the Hidden sheet row `["U", "123",
date]` carries no media kind), and the movie with the colliding numeric id
123 is then suppressed from the Movies display — the claim that hiding one
media kind does not suppress the other is false at this input. -/
theorem c6_counterexample :
    display_list [⟨123, some "movie", none, none⟩] (hideInSession ∅ 123) = [] ∧
    display_list [⟨123, some "movie", none, none⟩]
      (get_hidden_ids [["User", "Movie_ID", "Date"], ["U", "123", "2024-05-01"]]
        "U") = [] := by
  constructor <;> rfl

/-- C6 (amended): the hidden-title exclusion is scoped per user only, not
per media kind: every id in `get_hidden_ids rows u` comes from a row whose
first cell is `u` (other users' marks are not loaded), and every title whose
stringified id is in the hidden set is excluded from the display no matter
what its media kind is (the display filter never consults media kind, so
numerically colliding ids of the other kind are suppressed too). -/
theorem c6_hidden_scope (rows : List (List String)) (u x : String)
    (hx : x ∈ get_hidden_ids rows u) :
    (∃ row ∈ rows, row.get? 0 = some u ∧ row.get? 1 = some x) ∧
    (∀ (recs : List Title) (hidden : Finset String) (t : Title),
      idStr t ∈ hidden → t ∉ display_list recs hidden) := by
  constructor
  · rw [get_hidden_ids, List.mem_toFinset, List.mem_filterMap] at hx
    obtain ⟨row, hrow, hf⟩ := hx
    by_cases hc : 1 < row.length ∧ row.get? 0 = some u
    · rw [if_pos hc] at hf
      exact ⟨row, hrow, hc.2, hf⟩
    · rw [if_neg hc] at hf
      exact absurd hf (Option.some_ne_none x).symm
  · intro recs hidden t hmem hdisp
    rw [display_list, List.mem_filter] at hdisp
    exact (of_decide_eq_true hdisp.2) hmem

/-- C6 witness: the scoping theorem instantiated at the single hidden row
`["U", "123", "2024-05-01"]`. -/
theorem c6_witness :
    (∃ row ∈ [["U", "123", "2024-05-01"]],
      row.get? 0 = some "U" ∧ row.get? 1 = some "123") ∧
    (∀ (recs : List Title) (hidden : Finset String) (t : Title),
      idStr t ∈ hidden → t ∉ display_list recs hidden) :=
  c6_hidden_scope [["U", "123", "2024-05-01"]] "U" "123" (by decide)

/-- C2 counterexample: on the ratings `["90", "70", "bad", "50"]` the stats
dashboard does NOT report count 3, average 70, best 90 and worst 50 —
`total = len(user_history)` is 4 and `fillna(0)` coerces "bad" to 0. -/
theorem c2_counterexample :
    ¬ (statsTotal c2_rows = 3 ∧ avgRating c2_rows = some 70 ∧
       (bestRow c2_rows).map ScoredRow.score = some 90 ∧
       (worstRow c2_rows).map ScoredRow.score = some 50) := by
  intro h
  have h1 : statsTotal c2_rows = 4 := by rfl
  rw [h.1] at h1
  exact absurd h1 (by decide)

/-- C2 (amended): on the ratings `["90", "70", "bad", "50"]` the dashboard
reports count 4 (every record, malformed included), coerces the malformed
rating to 0 (`fillna(0)`), so the average is 52.5, the best record is "A"
with 90, and the worst record is the malformed row "C" with rating 0. -/
theorem c2_stats_behavior :
    statsTotal c2_rows = 4 ∧
    avgRating c2_rows = some (105 / 2) ∧
    (bestRow c2_rows).map ScoredRow.score = some 90 ∧
    (bestRow c2_rows).map (fun r => r.row.title) = some "A" ∧
    (worstRow c2_rows).map ScoredRow.score = some 0 ∧
    (worstRow c2_rows).map (fun r => r.row.title) = some "C" ∧
    to_numeric_fillna0 "bad" = 0 := by
  refine ⟨rfl, ?_, rfl, rfl, rfl, rfl, rfl⟩
  simp [avgRating, c2_rows, df_scores, to_numeric_fillna0, pyToNumeric,
    parseIntChars, digitsToNat]
  norm_num

/-- C7: in the genre-statistics derivation, (i) a record whose genre cell is
empty or reads "unknown"/"error" case-insensitively contributes no token to
any genre bucket, (ii) a token that is a key of the reversed taxonomy (whose
keys are the purely numeric genre-id strings) is normalized to its genre
name, and (iii) a token that is not purely numeric is kept as a literal
name.  The hypothesis states the taxonomy-key shape: `get_genre_map_reversed`
builds keys as `str(g['id'])` so every key is a digit string. -/
theorem c7_genre_cleaning (gmap : List (String × String))
    (hkeys : ∀ q ∈ gmap, q.1.data.all Char.isDigit = true) (g_str : String) :
    ((g_str = "" ∨ pyLower g_str = "unknown" ∨ pyLower g_str = "error") →
      genre_names_of gmap g_str = []) ∧
    (∀ part name, List.lookup part gmap = some name →
      normalize_token gmap part = name) ∧
    (∀ part, part.data.all Char.isDigit = false →
      normalize_token gmap part = part) := by
  refine ⟨?_, ?_, ?_⟩
  · intro hskip
    rw [genre_names_of, if_neg]
    intro hcond
    rcases hskip with h | h | h
    · exact hcond.1 h
    · exact hcond.2.1 h
    · exact hcond.2.2 h
  · intro part name hl
    rw [normalize_token, hl]
    rfl
  · intro part hpart
    rw [normalize_token, lookup_eq_none_of_no_digit part hpart gmap hkeys]
    rfl

/-- C7 witness: with the taxonomy `{"28": "Action"}`, the cell "Unknown"
contributes nothing, the numeric token "28" maps to "Action", and the
non-numeric token "Comedy" stays "Comedy". -/
theorem c7_witness :
    genre_names_of [("28", "Action")] "Unknown" = [] ∧
    normalize_token [("28", "Action")] "28" = "Action" ∧
    normalize_token [("28", "Action")] "Comedy" = "Comedy" := by
  have h := c7_genre_cleaning [("28", "Action")] (by decide) "Unknown"
  exact ⟨h.1 (Or.inr (Or.inl (by decide))),
    h.2.1 "28" "Action" (by decide),
    h.2.2 "Comedy" (by decide)⟩

/-- C8: a history-store read of fewer than 2 rows (header only or nothing)
yields the empty "no data" result — `get_users` returns an empty user list
without raising, and `get_watched_history` returns an empty frame. -/
theorem c8_short_reads_empty (rows : List (List String))
    (h : rows.length < 2) :
    get_users rows = Except.ok [] ∧ get_watched_history rows = [] := by
  constructor
  · rw [get_users, if_pos (Or.inr h)]
  · rw [get_watched_history, if_pos h]

/-- C8 witness: a response consisting of a lone header row gives the empty
user list and the empty history frame. -/
theorem c8_witness :
    get_users [["Date", "Title"]] = Except.ok [] ∧
    get_watched_history [["Date", "Title"]] = [] :=
  c8_short_reads_empty [["Date", "Title"]] (by decide)

/-- C9: a failed write surfaces rather than being silently swallowed: when
the ActivityRecord append fails, `log_media` propagates the exception —
the "Log to Database" run aborts with the framework's error screen and
emits no success notice — and when the HiddenMark append fails,
`hide_media_db` shows the explicit `st.error` notice "Could not save hide". -/
theorem c9_failed_writes_surface (hideFails : Bool) (ts u : String)
    (mid : Nat) (title : String) (gids : List Int) (mt poster : String)
    (rating : Nat) (hidden : Finset String) (movie_id timestamp : String) :
    (logButtonHandler true hideFails ts u mid title gids mt poster rating
      hidden).raised = true ∧
    (logButtonHandler true hideFails ts u mid title gids mt poster rating
      hidden).notices = [] ∧
    hide_media_db true u movie_id timestamp =
      ⟨[], [UINotice.errorNotice "Could not save hide"]⟩ :=
  ⟨rfl, rfl, rfl⟩

/-- C10: every successful "Log to Database" click (both appends succeed)
appends the ActivityRecord row for the active user, also appends the
HiddenMark row `[user, str(id), date]`, adds `str(id)` to the session hidden
set, and consequently no title carrying that id survives the display filter
of any subsequent recommendation render in the session. -/
theorem c10_log_action_hides (ts u : String) (mid : Nat) (title : String)
    (gids : List Int) (mt poster : String) (rating : Nat)
    (hidden : Finset String) (recs : List Title) :
    (logButtonHandler false false ts u mid title gids mt poster rating
      hidden).raised = false ∧
    (logButtonHandler false false ts u mid title gids mt poster rating
      hidden).activityAppended =
      [[ts, title, toString mid, genre_fix (GenresArg.ints gids), u,
        toString rating, mt, poster]] ∧
    (logButtonHandler false false ts u mid title gids mt poster rating
      hidden).hiddenAppended = [[u, toString mid, ts]] ∧
    toString mid ∈ (logButtonHandler false false ts u mid title gids mt poster
      rating hidden).hidden_movies ∧
    (display_list recs (logButtonHandler false false ts u mid title gids mt
      poster rating hidden).hidden_movies).filter
      (fun t => idStr t == toString mid) = [] := by
  refine ⟨rfl, rfl, rfl, Finset.mem_insert_self _ _, ?_⟩
  rw [List.filter_eq_nil_iff]
  intro t ht
  rw [display_list, List.mem_filter] at ht
  have hnot := of_decide_eq_true ht.2
  intro hbeq
  have heq : idStr t = toString mid := eq_of_beq hbeq
  exact hnot (heq ▸ Finset.mem_insert_self _ _)

end Cinematch
